import Mathlib

/-!
Verification development for the Revenue_scan leakage-detection core.

The definitions below are a shallow embedding of the Python sources:
  backend/services/enhanced_leakage_analyzer.py  (EnhancedLeakageAnalyzer)
  backend/services/alert_service.py              (check_condition, calculate_metric_value)
  backend/api/routes/upload_routes.py            (_analyze_data_for_leakages, negative-revenue loop)

Modelling conventions:
  * A pandas DataFrame is a list of column names plus a list of rows; each
    cell is a rational number, a text value, or null (NaN/None).  IEEE floats
    are modelled by exact rationals; all constants in the source (1.25, 0.01,
    0.5, thresholds) are exactly representable floats, so the arithmetic
    agrees on the reachable comparisons.
  * pandas NaN-skipping semantics: sums/means skip null cells, comparisons
    with null are false, is-numeric-dtype means no text cell in the column.
  * pandas sample standard deviation (ddof = 1) takes a real square root, so
    the analyzers that consume it are parameterised by the std function
    `stdFn : List Rat -> Rat` (the float code itself only computes an
    approximation of the square root).  No theorem below needs any property
    of `stdFn`.
  * Python str.lower is modelled per character (ASCII case folding, which is
    exact on the keyword lists and all inputs used here).
-/

/-- One cell of a loaded dataset: a number, a text value, or missing. -/
inductive Cell where
  | num (q : ℚ)
  | txt (s : String)
  | null
deriving DecidableEq, Repr

/-- An in-memory dataset: ordered column names and ordered rows, each row
aligned positionally with the column list. -/
structure DataFrame where
  cols : List String
  rows : List (List Cell)
deriving DecidableEq, Repr

/-- Column extraction, `df[col]`: the cell of each row at the column's index
(`none` when the column name is absent, which in Python raises KeyError). -/
def getCol (df : DataFrame) (c : String) : Option (List Cell) :=
  (df.cols.findIdx? (fun x => x = c)).map (fun i => df.rows.map (fun r => r.getD i Cell.null))

/-- Numeric content of a cell (`none` for text and null). -/
def cellNum : Cell → Option ℚ
  | .num q => some q
  | _ => none

/-- The numeric values of a column, in order; pandas reductions (sum, mean,
count) skip NaN, so they act on this list. -/
def numsOf (cells : List Cell) : List ℚ :=
  cells.filterMap cellNum

/-- pandas `is_numeric_dtype`: the column holds no text value (a column of
numbers and NaNs is a float column; any text makes it an object column). -/
def isNumericCol (cells : List Cell) : Bool :=
  cells.all (fun c => match c with | .txt _ => false | _ => true)

/-- Number of null cells, `df[col].isnull().sum()`. -/
def nullCountOf (cells : List Cell) : ℕ :=
  (cells.filter (fun c => c = Cell.null)).length

/-- ASCII case folding of one character followed by the source's
`replace('_', ' ').replace('-', ' ')`, applied per character. -/
def charNorm (c : Char) : Char :=
  if c = '_' ∨ c = '-' then ' ' else c.toLower

/-- The normalised form of a column name used by the fuzzy matcher:
`str(col_name).lower().replace('_', ' ').replace('-', ' ')`. -/
def normalizeName (s : String) : List Char :=
  s.data.map charNorm

/-- Auxiliary: does the second list start with the first one. -/
def listStarts : List Char → List Char → Bool
  | [], _ => true
  | _ :: _, [] => false
  | a :: as, b :: bs => a = b && listStarts as bs

/-- Python's substring test `pat in s` on character lists. -/
def listSub (pat : List Char) : List Char → Bool
  | [] => pat.isEmpty
  | c :: rest => listStarts pat (c :: rest) || listSub pat rest

/-- `EnhancedLeakageAnalyzer.fuzzy_match_column`: a column matches a keyword
list when some keyword occurs in the normalised name or the normalised name
occurs in the keyword. -/
def fuzzy_match_column (colName : String) (keywords : List String) : Bool :=
  let colLower := normalizeName colName
  keywords.any (fun k => listSub k.data colLower || listSub colLower k.data)

/-- Revenue keyword list from `EnhancedLeakageAnalyzer.__init__`. -/
def revenue_keywords : List String :=
  ["revenue", "sales", "income", "amount", "total", "price", "payment",
   "received", "collection", "receipt", "billing", "invoice", "charge",
   "gross", "net", "proceeds", "earning", "turnover", "value"]

/-- Cost keyword list from the source. -/
def cost_keywords : List String :=
  ["cost", "expense", "cogs", "spend", "payment", "payable", "expenditure",
   "overhead", "outflow", "disbursement", "liability", "purchase"]

/-- Discount keyword list from the source. -/
def discount_keywords : List String :=
  ["discount", "rebate", "reduction", "markdown", "allowance",
   "concession", "offer", "promo", "coupon", "voucher", "deal"]

/-- Quantity keyword list from the source. -/
def quantity_keywords : List String :=
  ["quantity", "qty", "units", "count", "number", "volume", "items",
   "pieces", "orders", "transactions", "sold"]

/-- Date keyword list from the source. -/
def date_keywords : List String :=
  ["date", "time", "day", "month", "year", "period", "timestamp",
   "created", "modified", "transaction", "order_date", "invoice_date"]

/-- Customer keyword list from the source. -/
def customer_keywords : List String :=
  ["customer", "client", "buyer", "account", "name", "company",
   "organization", "user", "member", "subscriber"]

/-- Product keyword list from the source. -/
def product_keywords : List String :=
  ["product", "item", "sku", "service", "description", "category",
   "type", "model", "variant", "article"]

/-- Profit keyword list from the source. -/
def profit_keywords : List String :=
  ["profit", "margin", "markup", "net_income", "earnings", "gain"]

/-- Refund keyword list from the source. -/
def refund_keywords : List String :=
  ["refund", "return", "chargeback", "reversal", "cancellation", "void"]

/-- The role-to-columns mapping returned by
`EnhancedLeakageAnalyzer.detect_columns`. -/
structure DetectedColumns where
  revenue : List String
  cost : List String
  discount : List String
  quantity : List String
  date : List String
  customer : List String
  product : List String
  profit : List String
  refund : List String
deriving DecidableEq, Repr

/-- `EnhancedLeakageAnalyzer.detect_columns`: each role collects the columns
whose name fuzzily matches its keyword list, preserving column order. -/
def detect_columns (cols : List String) : DetectedColumns :=
  { revenue := cols.filter (fun c => fuzzy_match_column c revenue_keywords)
    cost := cols.filter (fun c => fuzzy_match_column c cost_keywords)
    discount := cols.filter (fun c => fuzzy_match_column c discount_keywords)
    quantity := cols.filter (fun c => fuzzy_match_column c quantity_keywords)
    date := cols.filter (fun c => fuzzy_match_column c date_keywords)
    customer := cols.filter (fun c => fuzzy_match_column c customer_keywords)
    product := cols.filter (fun c => fuzzy_match_column c product_keywords)
    profit := cols.filter (fun c => fuzzy_match_column c profit_keywords)
    refund := cols.filter (fun c => fuzzy_match_column c refund_keywords) }

/-- One detected leakage.  The opaque uuid and the free-text description and
recommendation strings are omitted; every field a claim mentions is kept.
`affected_rows` is a natural number because every source expression feeding
it is a count (`int(...)` of a pandas count or a `len`). -/
structure Finding where
  type : String
  column : String
  amount : ℚ
  severity : String
  category : String
  status : String
  affected_rows : ℕ
deriving DecidableEq, Repr

/-- The negative values of a revenue column (`df[col] < 0` selects exactly
the numeric cells below zero; NaN compares false). -/
def negValues (cells : List Cell) : List ℚ :=
  (numsOf cells).filter (fun q => q < 0)

/-- The Finding record built by `analyze_negative_revenue` for one column:
amount = |sum of negatives| * 1.25 and severity from the affected-row
percentage (`negative_count / len(df) * 100`). -/
def negRevFinding (df : DataFrame) (col : String) (cells : List Cell) : Finding :=
  { type := "Negative Revenue", column := col,
    amount := |(negValues cells).sum| * (5/4),
    severity := if 10 < ((negValues cells).length : ℚ) / (df.rows.length : ℚ) * 100
      then "critical"
      else if 5 < ((negValues cells).length : ℚ) / (df.rows.length : ℚ) * 100
      then "high" else "medium",
    category := "Revenue Loss", status := "active",
    affected_rows := (negValues cells).length }

/-- Body of the per-column loop of
`EnhancedLeakageAnalyzer.analyze_negative_revenue`; the `try` around it turns
a missing column into a skip. -/
def negRevCol (df : DataFrame) (col : String) : List Finding :=
  match getCol df col with
  | none => []
  | some cells =>
    if isNumericCol cells then
      if 0 < (negValues cells).length then [negRevFinding df col cells] else []
    else []

/-- `EnhancedLeakageAnalyzer.analyze_negative_revenue`: run the per-column
body over every revenue-role column. -/
def analyze_negative_revenue (df : DataFrame) (revCols : List String) : List Finding :=
  revCols.flatMap (negRevCol df)

/-- The first revenue-role column that exists in the dataframe and is
numeric: `next((c for c in revenue_cols if c in df.columns and
pd.api.types.is_numeric_dtype(df[c])), None)`. -/
def firstNumericRevCol (df : DataFrame) (revCols : List String) : Option (List Cell) :=
  revCols.findSome? (fun c =>
    match getCol df c with
    | some cells => if isNumericCol cells then some cells else none
    | none => none)

/-- Body of the per-column loop of
`EnhancedLeakageAnalyzer.analyze_excessive_discounts`.  `total_discounts =
abs(sum)`, `avg_discount = mean` (NaN when the column has no numeric value,
in which case every `abs(v) > abs(avg)*2` comparison is false),
`discount_percentage` falls back to 0 unless a numeric revenue column with a
positive sum exists, and a Finding is emitted when `total_discounts > 0` and
(percentage > 15 or outlier count > 10 percent of the row count). -/
def discCol (df : DataFrame) (revCols : List String) (col : String) : List Finding :=
  match getCol df col with
  | none => []
  | some cells =>
    if isNumericCol cells then
      let ns := numsOf cells
      let total_discounts := |ns.sum|
      let high_count : ℕ :=
        if ns.length = 0 then 0
        else (ns.filter (fun v => |ns.sum / (ns.length : ℚ)| * 2 < |v|)).length
      let pct : ℚ :=
        if revCols ≠ [] ∧ 0 < total_discounts then
          match firstNumericRevCol df revCols with
          | some rcells =>
            if 0 < (numsOf rcells).sum then total_discounts / (numsOf rcells).sum * 100 else 0
          | none => 0
        else 0
      if 0 < total_discounts ∧ (15 < pct ∨ (df.rows.length : ℚ) * (1/10) < (high_count : ℚ)) then
        [{ type := "Excessive Discounts", column := col, amount := total_discounts,
           severity := if 20 < pct then "high" else "medium",
           category := "Pricing Strategy", status := "active",
           affected_rows := high_count }]
      else []
    else []

/-- `EnhancedLeakageAnalyzer.analyze_excessive_discounts`. -/
def analyze_excessive_discounts (df : DataFrame) (discountCols revCols : List String) :
    List Finding :=
  discountCols.flatMap (discCol df revCols)

/-- Body of the per-column loop of
`EnhancedLeakageAnalyzer.analyze_missing_data` (the source has no exception
guard here; within `analyze_complete` every critical column exists, so the
missing-column case is modelled as a skip).  The impact amount is
`mean(non-null) * null_count` for numeric revenue-role columns whose mean is
not NaN, else 0. -/
def missCol (df : DataFrame) (revCols costCols : List String) (col : String) : List Finding :=
  match getCol df col with
  | none => []
  | some cells =>
    if 0 < nullCountOf cells then
      let ns := numsOf cells
      let impact : ℚ :=
        if col ∈ revCols ∧ isNumericCol cells = true ∧ ns.length ≠ 0 then
          ns.sum / (ns.length : ℚ) * (nullCountOf cells : ℚ)
        else 0
      [{ type := "Missing Data", column := col, amount := impact,
         severity := if col ∈ revCols then "high" else if col ∈ costCols then "medium" else "low",
         category := "Data Quality", status := "active",
         affected_rows := nullCountOf cells }]
    else []

/-- `EnhancedLeakageAnalyzer.analyze_missing_data`: iterate over
`critical_cols = revenue_cols + cost_cols` (a column carrying both roles is
visited twice, as in the source). -/
def analyze_missing_data (df : DataFrame) (revCols costCols : List String) : List Finding :=
  (revCols ++ costCols).flatMap (missCol df revCols costCols)

/-- `df.duplicated().sum()` with keep-first semantics: the number of rows
equal to some earlier row, which is the row count minus the number of
distinct rows. -/
def duplicateCount (rows : List (List Cell)) : ℕ :=
  rows.length - rows.dedup.length

/-- Sum of the first numeric revenue column over the rows marked by
`df.duplicated(keep=False)` (rows having an exact clone anywhere, themselves
included), NaN cells skipped. -/
def dupRevenueSum (df : DataFrame) (revCols : List String) : ℚ :=
  match firstNumericRevCol df revCols with
  | some cells =>
    (((df.rows.zip cells).filter (fun p => 2 ≤ df.rows.count p.1)).filterMap
      (fun p => cellNum p.2)).sum
  | none => 0

/-- `EnhancedLeakageAnalyzer.analyze_duplicates`: one Finding when any
duplicated row exists; `affected_rows` is the keep-first count, the amount
is `abs((sum of the first revenue column over keep=False rows) / 2)`. -/
def analyze_duplicates (df : DataFrame) (revCols : List String) : List Finding :=
  if 0 < duplicateCount df.rows then
    [{ type := "Duplicate Transactions", column := "All Columns",
       amount := |dupRevenueSum df revCols / 2|,
       severity := "high", category := "Data Quality", status := "active",
       affected_rows := duplicateCount df.rows }]
  else []

/-- The distinct non-null keys of a groupby column (pandas drops NaN group
keys); `List.dedup` fixes one enumeration order, which only matters for the
tie-break of `pickTop` below (the source's tie-break is a non-stable
`sort_values` and is unspecified among equal sums). -/
def groupKeys (cells : List Cell) : List Cell :=
  (cells.filter (fun c => c ≠ Cell.null)).dedup

/-- The numeric values of the value column on the rows whose key column
equals `k` (`groupby(key)[val]` member list, NaN skipped by reductions). -/
def groupNums (keyCells valCells : List Cell) (k : Cell) : List ℚ :=
  ((keyCells.zip valCells).filter (fun p => p.1 = k)).filterMap (fun p => cellNum p.2)

/-- First element with the maximal sum, modelling
`sort_values(ascending=False).iloc[0]`. -/
def pickTop : List (Cell × ℚ) → Option (Cell × ℚ)
  | [] => none
  | g :: gs =>
    match pickTop gs with
    | none => some g
    | some t => if g.2 < t.2 then some t else some g

/-- Per-group statistics of `groupby(product)[revenue].agg(mean, std,
count)`: mean of the non-null revenue values (the 0 placeholder for an empty
group is never read: such groups fail the `count > 2` filter), the sample
standard deviation through the `stdFn` parameter, and the non-null count. -/
def groupStat (stdFn : List ℚ → ℚ) (pcells rcells : List Cell) (k : Cell) : ℚ × ℚ × ℕ :=
  let xs := groupNums pcells rcells k
  (if xs.length = 0 then 0 else xs.sum / (xs.length : ℚ), stdFn xs, xs.length)

/-- The groups flagged by `analyze_pricing_inconsistencies`:
`cv > 20 and count > 2 and mean > 0` with `cv = std / mean * 100`. -/
def inconsistentGroups (stdFn : List ℚ → ℚ) (pcells rcells : List Cell) : List (ℚ × ℚ × ℕ) :=
  ((groupKeys pcells).map (groupStat stdFn pcells rcells)).filter
    (fun g => decide (20 < g.2.1 / g.1 * 100) && decide (2 < g.2.2) && decide (0 < g.1))

/-- `EnhancedLeakageAnalyzer.analyze_pricing_inconsistencies`: only the first
product and first revenue column are used; per flagged group the loss is
`(mean + 0.5*std - mean) * count`; the amount is clamped by `max(loss, 0)`.
The per-pair `try` makes a missing column a skip. -/
def analyze_pricing_inconsistencies (stdFn : List ℚ → ℚ) (df : DataFrame)
    (productCols revCols : List String) : List Finding :=
  match productCols.head?, revCols.head? with
  | some pcol, some rcol =>
    match getCol df pcol, getCol df rcol with
    | some pcells, some rcells =>
      if isNumericCol rcells then
        let inconsistent := inconsistentGroups stdFn pcells rcells
        if 0 < inconsistent.length then
          let loss := (inconsistent.map (fun g => ((g.1 + g.2.1 * (1/2)) - g.1) * (g.2.2 : ℚ))).sum
          [{ type := "Pricing Inconsistencies", column := pcol ++ ", " ++ rcol,
             amount := max loss 0, severity := "medium",
             category := "Pricing Strategy", status := "active",
             affected_rows := (inconsistent.map (fun g => g.2.2)).sum }]
        else []
      else []
    | _, _ => []
  | _, _ => []

/-- `EnhancedLeakageAnalyzer.analyze_customer_concentration`: group the first
revenue column by the first customer column, and when there are more than 5
distinct customers and the top customer's share exceeds 30 percent of the
total, emit a high-severity Finding with amount = top revenue * 0.5.  The
share `top / total * 100` is modelled with rational division (division by a
zero total yields 0 here, whereas the float code would produce inf or NaN;
in both models no Finding with a negative amount can be emitted, and a zero
total with a positive top sum cannot occur in financially meaningful data). -/
def analyze_customer_concentration (df : DataFrame) (customerCols revCols : List String) :
    List Finding :=
  match customerCols.head?, revCols.head? with
  | some ccol, some rcol =>
    match getCol df ccol, getCol df rcol with
    | some ccells, some rcells =>
      if isNumericCol rcells then
        let groups := (groupKeys ccells).map (fun k => (k, (groupNums ccells rcells k).sum))
        let total := (groups.map Prod.snd).sum
        if 5 < groups.length then
          match pickTop groups with
          | some top =>
            if 30 < top.2 / total * 100 then
              [{ type := "Customer Concentration Risk", column := ccol ++ ", " ++ rcol,
                 amount := top.2 * (1/2), severity := "high",
                 category := "Business Risk", status := "active",
                 affected_rows := (ccells.filter (fun c => c = top.1)).length }]
            else []
          | none => []
        else []
      else []
    | _, _ => []
  | _, _ => []

/-- A complete leakage report, `{total_leakages, total_amount, items,
columns_analyzed}` (the JSON shape keeps the role lists; the raw column
count is recoverable from the role set and is omitted). -/
structure LeakageReport where
  total_leakages : ℕ
  total_amount : ℚ
  items : List Finding
  columns_analyzed : DetectedColumns
deriving DecidableEq, Repr

/-- `all_leakages.sort(key=lambda x: x['amount'], reverse=True)`: a stable
sort descending by amount. -/
def sortDesc (l : List Finding) : List Finding :=
  l.mergeSort (fun a b => decide (b.amount ≤ a.amount))

/-- `EnhancedLeakageAnalyzer.analyze_complete`: classify the columns, run the
six analyzers, total the amounts over the concatenated findings, and sort
descending by amount. -/
def analyze_complete (stdFn : List ℚ → ℚ) (df : DataFrame) : LeakageReport :=
  let columns := detect_columns df.cols
  let all := analyze_negative_revenue df columns.revenue
    ++ analyze_excessive_discounts df columns.discount columns.revenue
    ++ analyze_missing_data df columns.revenue columns.cost
    ++ analyze_duplicates df columns.revenue
    ++ analyze_pricing_inconsistencies stdFn df columns.product columns.revenue
    ++ analyze_customer_concentration df columns.customer columns.revenue
  { total_leakages := all.length,
    total_amount := (all.map Finding.amount).sum,
    items := sortDesc all,
    columns_analyzed := columns }

/-- A degenerate standard-deviation function usable to instantiate `stdFn`
in concrete evaluations (no theorem depends on the choice). -/
def stdZero : List ℚ → ℚ := fun _ => 0

/-- `alert_service.check_condition`: threshold comparison with an epsilon of
0.01 for the equality operators. -/
def check_condition (current : ℚ) (condition : String) (threshold : ℚ) : Bool :=
  if condition = "greater_than" then decide (threshold < current)
  else if condition = "less_than" then decide (current < threshold)
  else if condition = "equals" then decide (|current - threshold| < 1/100)
  else if condition = "not_equals" then decide (1/100 ≤ |current - threshold|)
  else false

/-- Concrete dataset of spec scenario 1: one revenue column [100, -50, 200]. -/
def dfC1 : DataFrame :=
  { cols := ["revenue"], rows := [[Cell.num 100], [Cell.num (-50)], [Cell.num 200]] }

/-- Concrete dataset of spec scenario 2: one revenue column [10, 10, 10, 99]
whose rows 0 to 2 are byte-identical duplicates. -/
def dfC2 : DataFrame :=
  { cols := ["revenue"],
    rows := [[Cell.num 10], [Cell.num 10], [Cell.num 10], [Cell.num 99]] }

/-- Concrete dataset for C6: a numeric revenue column holding -100 and one
missing value, so the missing-data impact estimate mean * null_count is
negative. -/
def dfC6 : DataFrame :=
  { cols := ["revenue"], rows := [[Cell.num (-100)], [Cell.null]] }

/-- The negative-revenue and zero-revenue Findings of the per-column revenue
loop of `upload_routes._analyze_data_for_leakages` (the baseline analyzer
variant): amount is the plain |sum of negatives| without the 1.25 overhead
multiplier and severity is fixed at high; a separate medium Finding with
amount 0 reports zero-revenue transactions. -/
def routeNegRevCol (df : DataFrame) (col : String) : List Finding :=
  match getCol df col with
  | none => []
  | some cells =>
    if isNumericCol cells then
      (if 0 < (negValues cells).length then
        [{ type := "Negative Revenue", column := col, amount := |(negValues cells).sum|,
           severity := "high", category := "Revenue Loss", status := "active",
           affected_rows := (negValues cells).length }]
       else [])
      ++ (if 0 < ((numsOf cells).filter (fun q => q = 0)).length then
        [{ type := "Zero Revenue Transactions", column := col, amount := 0,
           severity := "medium", category := "Pricing Issue", status := "active",
           affected_rows := ((numsOf cells).filter (fun q => q = 0)).length }]
       else [])
    else []

/-- Step 1 of `upload_routes._analyze_data_for_leakages` over its revenue
columns. -/
def route_analyze_negative_revenue (df : DataFrame) (revCols : List String) : List Finding :=
  revCols.flatMap (routeNegRevCol df)

/-- The `financial_summary` dictionary read by
`alert_service.calculate_metric_value` (`.get(key, 0)` defaults are the
field values of the record). -/
structure FinancialSummary where
  total_revenue : ℚ
  profit_margin : ℚ
  total_costs : ℚ
  net_profit : ℚ
deriving DecidableEq, Repr

/-- The `data_summary` blob: the financial summary plus per-column null
counts (`column_details[col]['null_count']`). -/
structure DataSummary where
  financial_summary : FinancialSummary
  column_details : List (String × ℕ)
deriving DecidableEq, Repr

/-- The metadata of an upload record used by the metric evaluator. -/
structure UploadMeta where
  total_rows : ℕ
deriving DecidableEq, Repr

/-- `alert_service.calculate_metric_value`: map a metric name to a scalar by
reading the leakage items and the summaries; unknown metrics resolve to 0.
The count metrics filter the leakage list by the exact `type` string the
source compares against (note `negative_revenue` filters on the literal
string Negative Revenue Values). -/
def calculate_metric_value (metric : String) (upload : UploadMeta)
    (leakage_data : List Finding) (ds : DataSummary) : ℚ :=
  let fs := ds.financial_summary
  if metric = "revenue_total" then fs.total_revenue
  else if metric = "high_leakage" then (leakage_data.map (fun l => |l.amount|)).sum
  else if metric = "leakage_percentage" then
    if 0 < fs.total_revenue then
      (leakage_data.map (fun l => |l.amount|)).sum / fs.total_revenue * 100
    else 0
  else if metric = "negative_revenue" then
    (((leakage_data.filter (fun l => l.type = "Negative Revenue Values")).map
      (fun l => (l.affected_rows : ℚ))).sum)
  else if metric = "zero_revenue" then
    (((leakage_data.filter (fun l => l.type = "Zero Revenue Transactions")).map
      (fun l => (l.affected_rows : ℚ))).sum)
  else if metric = "missing_data" then
    let totalRows := if upload.total_rows = 0 then 1 else upload.total_rows
    let numCols := ds.column_details.length
    let totalNulls := (ds.column_details.map (fun p => p.2)).sum
    let totalCells := if 0 < numCols then totalRows * numCols else 1
    if 0 < totalCells then (totalNulls : ℚ) / (totalCells : ℚ) * 100 else 0
  else if metric = "duplicate_transactions" then
    (((leakage_data.filter (fun l => l.type = "Duplicate Transactions")).map
      (fun l => (l.affected_rows : ℚ))).sum)
  else if metric = "data_quality_score" then
    let totalRows := if upload.total_rows = 0 then 1 else upload.total_rows
    let errPct := if 0 < totalRows then (leakage_data.length : ℚ) / (totalRows : ℚ) * 100 else 0
    max 0 (100 - errPct)
  else if metric = "excessive_costs" then
    (((leakage_data.filter (fun l => l.type = "Excessive Costs")).map
      (fun l => (l.affected_rows : ℚ))).sum)
  else if metric = "profit_margin" then fs.profit_margin
  else if metric = "total_costs" then fs.total_costs
  else if metric = "net_profit" then fs.net_profit
  else 0

/-- A concrete finding of the type the negative-revenue analyzers emit, used
by the C10 witness. -/
def fNegRev0 : Finding :=
  { type := "Negative Revenue", column := "revenue", amount := 50,
    severity := "high", category := "Revenue Loss", status := "active",
    affected_rows := 1 }

/-- Concrete summary records for the C10 witness. -/
def ds0 : DataSummary :=
  { financial_summary :=
      { total_revenue := 300, profit_margin := 0, total_costs := 0, net_profit := 0 },
    column_details := [("revenue", 0)] }

/-- Concrete upload metadata for the C10 witness. -/
def upl0 : UploadMeta := { total_rows := 3 }

/-- Cell type of the exception-level model for the aggregator's failure
behaviour: like `Cell` plus an unhashable Python object (e.g. a list stored
in a spreadsheet cell), the one data shape the spec names as able to make an
analyzer throw. -/
inductive CellE where
  | num (q : ℚ)
  | txt (s : String)
  | obj (tag : String)
  | null
deriving DecidableEq, Repr

/-- A dataframe over the extended cells. -/
structure DataFrameE where
  cols : List String
  rows : List (List CellE)
deriving DecidableEq, Repr

/-- Forget the exception structure: an unhashable object behaves like an
opaque non-null, non-numeric value for dtype checks, isnull and comparisons
(the operations the other analyzers apply to it), so it projects to a
tagged text value. -/
def projCellE : CellE → Cell
  | .num q => Cell.num q
  | .txt s => Cell.txt s
  | .obj t => Cell.txt ("unhashable:" ++ t)
  | .null => Cell.null

/-- Projection of a whole dataframe. -/
def projDF (df : DataFrameE) : DataFrame :=
  { cols := df.cols, rows := df.rows.map (fun r => r.map projCellE) }

/-- Is the cell an unhashable object. -/
def isObjCell : CellE → Bool
  | .obj _ => true
  | _ => false

/-- Does any cell of the dataframe hold an unhashable object. -/
def hasObjE (df : DataFrameE) : Bool :=
  df.rows.any (fun r => r.any isObjCell)

/-- Column extraction in the exception-level model. -/
def getColE (df : DataFrameE) (c : String) : Option (List CellE) :=
  (df.cols.findIdx? (fun x => x = c)).map (fun i => df.rows.map (fun r => r.getD i CellE.null))

/-- Does the named column hold an unhashable object. -/
def colHasObjE (df : DataFrameE) (c : String) : Bool :=
  match getColE df c with
  | some cells => cells.any isObjCell
  | none => false

/-- `analyze_duplicates` in the exception model: `df.duplicated()` hashes
every cell of every row, so it raises TypeError as soon as the dataframe
holds an unhashable object; the source wraps no try around this analyzer,
hence the error escapes it. -/
def analyze_duplicates_E (df : DataFrameE) (revCols : List String) :
    Except String (List Finding) :=
  if hasObjE df then Except.error "TypeError: unhashable object"
  else Except.ok (analyze_duplicates (projDF df) revCols)

/-- `analyze_pricing_inconsistencies` in the exception model: grouping by a
product column that holds an unhashable object raises inside the per-pair
`try`, which the analyzer itself catches, contributing no findings;
otherwise it behaves like the plain model on the projected dataframe. -/
def analyze_pricing_E (stdFn : List ℚ → ℚ) (df : DataFrameE)
    (productCols revCols : List String) : List Finding :=
  match productCols.head? with
  | some p =>
    if colHasObjE df p then []
    else analyze_pricing_inconsistencies stdFn (projDF df) productCols revCols
  | none => []

/-- `analyze_customer_concentration` in the exception model, with the same
internally caught grouping failure. -/
def analyze_customer_E (df : DataFrameE) (customerCols revCols : List String) : List Finding :=
  match customerCols.head? with
  | some c =>
    if colHasObjE df c then []
    else analyze_customer_concentration (projDF df) customerCols revCols
  | none => []

/-- `analyze_complete` in the exception model.  The source method contains
no try/except of its own: it calls the six analyzers in order and extends
one list, so an exception escaping any analyzer (here: duplicate detection)
propagates and aborts the whole report. -/
def analyzeCompleteE (stdFn : List ℚ → ℚ) (df : DataFrameE) : Except String LeakageReport :=
  let columns := detect_columns df.cols
  let l1 := analyze_negative_revenue (projDF df) columns.revenue
  let l2 := analyze_excessive_discounts (projDF df) columns.discount columns.revenue
  let l3 := analyze_missing_data (projDF df) columns.revenue columns.cost
  match analyze_duplicates_E df columns.revenue with
  | Except.error e => Except.error e
  | Except.ok l4 =>
    let l5 := analyze_pricing_E stdFn df columns.product columns.revenue
    let l6 := analyze_customer_E df columns.customer columns.revenue
    let all := l1 ++ l2 ++ l3 ++ l4 ++ l5 ++ l6
    Except.ok { total_leakages := all.length,
                total_amount := (all.map Finding.amount).sum,
                items := sortDesc all,
                columns_analyzed := columns }

/-- A dataframe with an unhashable product cell next to a clean revenue
column with a negative value: the pricing analyzer would be the one the spec
expects to fail, but duplicate detection fails first and nothing survives. -/
def dfBadC3 : DataFrameE :=
  { cols := ["product", "revenue"],
    rows := [[CellE.obj "x", CellE.num (-50)], [CellE.txt "a", CellE.num 100]] }

/-- A clean dataframe satisfying the loader contract, for the C3 witness. -/
def dfOkC3 : DataFrameE :=
  { cols := ["revenue"], rows := [[CellE.num 5]] }

/-- A dataframe whose product column holds an unhashable object, to witness
that the pricing analyzer contains its own failure. -/
def dfObjW : DataFrameE :=
  { cols := ["Product", "Sales"], rows := [[CellE.obj "o", CellE.num 1]] }

/-- The membership form of the fuzzy matcher, used to state C8. -/
def fuzzyMatchesP (colName : String) (keywords : List String) : Prop :=
  ∃ k ∈ keywords, listSub k.data (normalizeName colName) = true ∨
    listSub (normalizeName colName) k.data = true

theorem fuzzy_match_column_iff (colName : String) (keywords : List String) :
    fuzzy_match_column colName keywords = true ↔ fuzzyMatchesP colName keywords := by
  unfold fuzzy_match_column fuzzyMatchesP
  simp [List.any_eq_true, Bool.or_eq_true]

theorem mem_filter_fuzzy (cols : List String) (c : String) (kws : List String) :
    c ∈ cols.filter (fun x => fuzzy_match_column x kws) ↔ c ∈ cols ∧ fuzzyMatchesP c kws := by
  rw [List.mem_filter, fuzzy_match_column_iff]

/-- C8: the column classifier assigns a column to a role exactly when some
keyword of the role's list is a substring of the normalised column name or
the normalised name is a substring of that keyword; it is a pure total
function (hence deterministic and non-throwing), and a role with no matching
column is the empty list. -/
theorem c8_column_classifier :
    (∀ colName keywords, fuzzy_match_column colName keywords = true ↔ fuzzyMatchesP colName keywords)
    ∧ (∀ (cols : List String) (c : String),
        (c ∈ (detect_columns cols).revenue ↔ c ∈ cols ∧ fuzzyMatchesP c revenue_keywords)
        ∧ (c ∈ (detect_columns cols).cost ↔ c ∈ cols ∧ fuzzyMatchesP c cost_keywords)
        ∧ (c ∈ (detect_columns cols).discount ↔ c ∈ cols ∧ fuzzyMatchesP c discount_keywords)
        ∧ (c ∈ (detect_columns cols).quantity ↔ c ∈ cols ∧ fuzzyMatchesP c quantity_keywords)
        ∧ (c ∈ (detect_columns cols).date ↔ c ∈ cols ∧ fuzzyMatchesP c date_keywords)
        ∧ (c ∈ (detect_columns cols).customer ↔ c ∈ cols ∧ fuzzyMatchesP c customer_keywords)
        ∧ (c ∈ (detect_columns cols).product ↔ c ∈ cols ∧ fuzzyMatchesP c product_keywords)
        ∧ (c ∈ (detect_columns cols).profit ↔ c ∈ cols ∧ fuzzyMatchesP c profit_keywords)
        ∧ (c ∈ (detect_columns cols).refund ↔ c ∈ cols ∧ fuzzyMatchesP c refund_keywords))
    ∧ (∀ (cols : List String) (kws : List String), (∀ c ∈ cols, fuzzy_match_column c kws = false) →
        cols.filter (fun x => fuzzy_match_column x kws) = []) := by
  refine ⟨fuzzy_match_column_iff, ?_, ?_⟩
  · intro cols c
    exact ⟨mem_filter_fuzzy cols c revenue_keywords, mem_filter_fuzzy cols c cost_keywords,
      mem_filter_fuzzy cols c discount_keywords, mem_filter_fuzzy cols c quantity_keywords,
      mem_filter_fuzzy cols c date_keywords, mem_filter_fuzzy cols c customer_keywords,
      mem_filter_fuzzy cols c product_keywords, mem_filter_fuzzy cols c profit_keywords,
      mem_filter_fuzzy cols c refund_keywords⟩
  · intro cols kws h
    rw [List.filter_eq_nil_iff]
    intro c hc
    simp [h c hc]

/-- Witness for C8: for the column name Total_Amount the classifier assigns
the revenue role (keyword amount occurs in the normalised name) but not the
discount role. -/
theorem c8_witness :
    ("Total_Amount" ∈ (detect_columns ["Total_Amount"]).revenue ↔
      "Total_Amount" ∈ ["Total_Amount"] ∧ fuzzyMatchesP "Total_Amount" revenue_keywords)
    ∧ ["X"].filter (fun x => fuzzy_match_column x discount_keywords) = [] := by
  constructor
  · exact ((c8_column_classifier.2.1 ["Total_Amount"] "Total_Amount").1)
  · exact c8_column_classifier.2.2 ["X"] discount_keywords (by decide)

/-- C9: the metric evaluator treats the equals operator as a 0.01-epsilon
comparison and not-equals as its complement, rather than exact float
equality; in particular 100.004 equals 100.0 and 100.02 does not. -/
theorem c9_epsilon_equality :
    (∀ current threshold : ℚ,
      (check_condition current "equals" threshold = true ↔ |current - threshold| < 1/100)
      ∧ (check_condition current "not_equals" threshold = true ↔ 1/100 ≤ |current - threshold|))
    ∧ check_condition (100 + 4/1000) "equals" 100 = true
    ∧ check_condition (100 + 2/100) "equals" 100 = false := by
  have hgen : ∀ current threshold : ℚ,
      (check_condition current "equals" threshold = true ↔ |current - threshold| < 1/100)
      ∧ (check_condition current "not_equals" threshold = true ↔ 1/100 ≤ |current - threshold|) := by
    intro current threshold
    constructor
    · simp [check_condition]
    · simp [check_condition]
  refine ⟨hgen, ?_, ?_⟩
  · exact (hgen _ _).1.mpr (by rw [abs_lt]; norm_num)
  · refine Bool.eq_false_iff.mpr (fun h => ?_)
    have h2 := (hgen _ _).1.mp h
    rw [abs_lt] at h2
    norm_num at h2

/-- C1: for every dataset and every revenue-role column that is numeric and
has at least one negative value, the negative-revenue analyzer emits a
Finding for that column with amount = |sum of negatives| * 1.25 and severity
critical / high / medium according to the affected-row percentage being
above 10 / above 5 / otherwise. -/
theorem c1_negative_revenue (df : DataFrame) (col : String) (cells : List Cell)
    (h1 : col ∈ (detect_columns df.cols).revenue)
    (h2 : getCol df col = some cells)
    (h3 : isNumericCol cells = true)
    (h4 : 0 < (negValues cells).length) :
    ∃ f ∈ analyze_negative_revenue df (detect_columns df.cols).revenue,
      f.type = "Negative Revenue" ∧ f.column = col ∧
      f.amount = |(negValues cells).sum| * (5/4) ∧
      f.affected_rows = (negValues cells).length ∧
      f.severity = (if 10 < ((negValues cells).length : ℚ) / (df.rows.length : ℚ) * 100
        then "critical"
        else if 5 < ((negValues cells).length : ℚ) / (df.rows.length : ℚ) * 100
        then "high" else "medium") := by
  have hcol : negRevCol df col = [negRevFinding df col cells] := by
    unfold negRevCol
    rw [h2]
    simp only [h3, if_true, h4, if_pos]
  have hmem : negRevFinding df col cells ∈
      analyze_negative_revenue df (detect_columns df.cols).revenue := by
    rw [analyze_negative_revenue, List.mem_flatMap]
    exact ⟨col, h1, by rw [hcol]; exact List.mem_singleton.mpr rfl⟩
  exact ⟨_, hmem, rfl, rfl, rfl, rfl, rfl⟩

/-- Witness for C1, spec scenario 1: revenue column [100, -50, 200] yields a
Negative Revenue Finding with affected_rows = 1 and amount = 62.5. -/
theorem c1_witness :
    ∃ f ∈ analyze_negative_revenue dfC1 (detect_columns dfC1.cols).revenue,
      f.type = "Negative Revenue" ∧ f.column = "revenue" ∧
      f.amount = 125/2 ∧ f.affected_rows = 1 ∧ f.severity = "critical" := by
  have h := c1_negative_revenue dfC1 "revenue"
    [Cell.num 100, Cell.num (-50), Cell.num 200]
    (by decide) rfl (by decide) (by decide)
  obtain ⟨f, hf, ht, hc, ha, hr, hs⟩ := h
  refine ⟨f, hf, ht, hc, ?_, ?_, ?_⟩
  · rw [ha]; norm_num [negValues, numsOf, cellNum, List.filterMap, List.filter]
  · rw [hr]; decide
  · rw [hs]; norm_num [negValues, numsOf, cellNum, dfC1, List.filterMap, List.filter]

/-- C2 fails on the code: for revenue column [10, 10, 10, 99] with rows 0-2
identical, the emitted Finding's affected_rows is the keep-first duplicate
count 2 (occurrences beyond the first), not 3 as the claim asserts, while
the amount is (10+10+10)/2 = 15 as claimed. -/
theorem c2_counterexample :
    (detect_columns dfC2.cols).revenue = ["revenue"]
    ∧ (analyze_duplicates dfC2 (detect_columns dfC2.cols).revenue).map Finding.affected_rows = [2]
    ∧ (analyze_duplicates dfC2 (detect_columns dfC2.cols).revenue).map Finding.amount = [15]
    ∧ (2 : ℕ) ≠ 3 := by
  refine ⟨by decide, by decide, ?_, by decide⟩
  have hrev : (detect_columns dfC2.cols).revenue = ["revenue"] := by decide
  rw [hrev]
  have hpos : 0 < duplicateCount dfC2.rows := by decide
  rw [analyze_duplicates, if_pos hpos]
  have hsum : dupRevenueSum dfC2 ["revenue"] = 30 := by
    have hlist : dupRevenueSum dfC2 ["revenue"] = ([10, 10, 10] : List ℚ).sum := rfl
    rw [hlist]
    norm_num
  simp only [List.map_cons, List.map_nil, hsum]
  norm_num

/-- C2 amended: when any fully-duplicate row exists the analyzer emits
exactly one Finding; its affected_rows is the keep-first duplicate count
(rows equal to an earlier row, i.e. row count minus distinct-row count), and
its amount is |(sum of the first numeric revenue column over all rows having
an exact clone, themselves included) / 2|. -/
theorem c2_amended (df : DataFrame) (revCols : List String)
    (h : 0 < duplicateCount df.rows) :
    analyze_duplicates df revCols =
      [{ type := "Duplicate Transactions", column := "All Columns",
         amount := |dupRevenueSum df revCols / 2|,
         severity := "high", category := "Data Quality", status := "active",
         affected_rows := duplicateCount df.rows }] := by
  rw [analyze_duplicates, if_pos h]

/-- Witness for the amended C2 at spec scenario 2. -/
theorem c2_witness :
    analyze_duplicates dfC2 ["revenue"] =
      [{ type := "Duplicate Transactions", column := "All Columns",
         amount := |dupRevenueSum dfC2 ["revenue"] / 2|,
         severity := "high", category := "Data Quality", status := "active",
         affected_rows := duplicateCount dfC2.rows }] :=
  c2_amended dfC2 ["revenue"] (by decide)

/-- C4: the report's total_amount is exactly the sum of the amount fields of
the Findings in its items sequence (the total is computed on the unsorted
concatenation and sorting is a permutation). -/
theorem c4_total_amount (stdFn : List ℚ → ℚ) (df : DataFrame) :
    (analyze_complete stdFn df).total_amount =
      ((analyze_complete stdFn df).items.map Finding.amount).sum := by
  unfold analyze_complete sortDesc
  exact (List.Perm.sum_eq (List.Perm.map Finding.amount (List.mergeSort_perm _ _))).symm

/-- C5: the report's items sequence is sorted in descending order of amount
(every later Finding's amount is at most every earlier one's); the sort is a
stable merge sort applied to a deterministically built list, so ties keep a
fixed order for a fixed input. -/
theorem c5_sorted_desc (stdFn : List ℚ → ℚ) (df : DataFrame) :
    (analyze_complete stdFn df).items.Pairwise (fun a b => b.amount ≤ a.amount) := by
  unfold analyze_complete sortDesc
  have h := @List.sorted_mergeSort Finding
    (fun a b : Finding => decide (b.amount ≤ a.amount))
    (fun a b c hab hbc => by
      simp only [decide_eq_true_eq] at hab hbc ⊢
      exact le_trans hbc hab)
    (fun a b => by
      simp only [Bool.or_eq_true, decide_eq_true_eq]
      exact le_total b.amount a.amount)
    (analyze_negative_revenue df (detect_columns df.cols).revenue
      ++ analyze_excessive_discounts df (detect_columns df.cols).discount
          (detect_columns df.cols).revenue
      ++ analyze_missing_data df (detect_columns df.cols).revenue (detect_columns df.cols).cost
      ++ analyze_duplicates df (detect_columns df.cols).revenue
      ++ analyze_pricing_inconsistencies stdFn df (detect_columns df.cols).product
          (detect_columns df.cols).revenue
      ++ analyze_customer_concentration df (detect_columns df.cols).customer
          (detect_columns df.cols).revenue)
  exact h.imp (fun hab => by simpa using hab)

theorem getCol_nilRows (cols : List String) (c : String) :
    getCol { cols := cols, rows := [] } c = none
    ∨ getCol { cols := cols, rows := [] } c = some [] := by
  unfold getCol
  cases h : cols.findIdx? (fun x => x = c) <;> simp [h]

theorem negRevCol_nilRows (cols : List String) (c : String) :
    negRevCol { cols := cols, rows := [] } c = [] := by
  unfold negRevCol
  rcases getCol_nilRows cols c with h | h <;> rw [h]
  rfl

theorem discCol_nilRows (cols : List String) (revCols : List String) (c : String) :
    discCol { cols := cols, rows := [] } revCols c = [] := by
  unfold discCol
  rcases getCol_nilRows cols c with h | h <;> rw [h]
  norm_num [numsOf, isNumericCol]

theorem missCol_nilRows (cols : List String) (revCols costCols : List String) (c : String) :
    missCol { cols := cols, rows := [] } revCols costCols c = [] := by
  unfold missCol
  rcases getCol_nilRows cols c with h | h <;> rw [h]
  norm_num [nullCountOf]

theorem dup_nilRows (cols : List String) (revCols : List String) :
    analyze_duplicates { cols := cols, rows := [] } revCols = [] := rfl

theorem pricing_nilRows (stdFn : List ℚ → ℚ) (cols : List String)
    (pcs rcs : List String) :
    analyze_pricing_inconsistencies stdFn { cols := cols, rows := [] } pcs rcs = [] := by
  unfold analyze_pricing_inconsistencies
  cases pcs with
  | nil => rfl
  | cons p ps =>
    cases rcs with
    | nil => rfl
    | cons r rs =>
      rcases getCol_nilRows cols p with hp | hp <;>
        rcases getCol_nilRows cols r with hr | hr <;>
          simp only [List.head?, hp, hr] <;>
            norm_num [isNumericCol, inconsistentGroups, groupKeys]

theorem customer_nilRows (cols : List String) (ccs rcs : List String) :
    analyze_customer_concentration { cols := cols, rows := [] } ccs rcs = [] := by
  unfold analyze_customer_concentration
  cases ccs with
  | nil => rfl
  | cons p ps =>
    cases rcs with
    | nil => rfl
    | cons r rs =>
      rcases getCol_nilRows cols p with hp | hp <;>
        rcases getCol_nilRows cols r with hr | hr <;>
          simp only [List.head?, hp, hr] <;>
            norm_num [isNumericCol, groupKeys]

theorem flatMap_eq_nil_of (f : String → List Finding) (l : List String)
    (h : ∀ x ∈ l, f x = []) : l.flatMap f = [] := by
  induction l with
  | nil => rfl
  | cons a as ih =>
    rw [List.flatMap_cons, h a (List.mem_cons_self a as), List.nil_append]
    exact ih (fun x hx => h x (List.mem_cons_of_mem a hx))

/-- C7: on a dataset with zero rows and arbitrary columns the aggregator
returns a report with total_leakages = 0, total_amount = 0 and no items (the
embedding is a total function, so no exception can occur; every ratio in the
source is either explicitly guarded or unreachable when its denominator is
zero, and on an empty dataset no division is evaluated at all because every
analyzer bails out on its count guard first). -/
theorem c7_empty_input (stdFn : List ℚ → ℚ) (cols : List String) :
    analyze_complete stdFn { cols := cols, rows := [] } =
      { total_leakages := 0, total_amount := 0, items := [],
        columns_analyzed := detect_columns cols } := by
  have h1 : analyze_negative_revenue { cols := cols, rows := [] }
      (detect_columns cols).revenue = [] :=
    flatMap_eq_nil_of _ _ (fun x _ => negRevCol_nilRows cols x)
  have h2 : analyze_excessive_discounts { cols := cols, rows := [] }
      (detect_columns cols).discount (detect_columns cols).revenue = [] :=
    flatMap_eq_nil_of _ _ (fun x _ => discCol_nilRows cols (detect_columns cols).revenue x)
  have h3 : analyze_missing_data { cols := cols, rows := [] }
      (detect_columns cols).revenue (detect_columns cols).cost = [] :=
    flatMap_eq_nil_of _ _
      (fun x _ => missCol_nilRows cols (detect_columns cols).revenue (detect_columns cols).cost x)
  simp only [analyze_complete, h1, h2, h3, dup_nilRows, pricing_nilRows, customer_nilRows,
    List.append_nil, List.nil_append]
  simp [sortDesc]

theorem pickTop_eq_none_iff (l : List (Cell × ℚ)) : pickTop l = none ↔ l = [] := by
  cases l with
  | nil => simp [pickTop]
  | cons g gs =>
    simp only [pickTop]
    cases h : pickTop gs
    · simp
    · simp only []
      constructor
      · intro hcon
        split at hcon <;> cases hcon
      · intro hcon
        cases hcon

theorem pickTop_le (l : List (Cell × ℚ)) (t : Cell × ℚ) (ht : pickTop l = some t) :
    ∀ p ∈ l, p.2 ≤ t.2 := by
  induction l generalizing t with
  | nil => cases ht
  | cons g gs ih =>
    intro p hp
    simp only [pickTop] at ht
    cases hgs : pickTop gs with
    | none =>
      simp only [hgs] at ht
      cases ht
      rcases List.mem_cons.mp hp with h | h
      · subst h; exact le_refl _
      · rw [(pickTop_eq_none_iff gs).mp hgs] at h
        simp at h
    | some t0 =>
      simp only [hgs] at ht
      by_cases hc : g.2 < t0.2
      · rw [if_pos hc] at ht
        cases ht
        rcases List.mem_cons.mp hp with h | h
        · subst h; exact le_of_lt hc
        · exact ih _ hgs p h
      · rw [if_neg hc] at ht
        cases ht
        rcases List.mem_cons.mp hp with h | h
        · subst h; exact le_refl _
        · exact le_trans (ih _ hgs p h) (not_lt.mp hc)

theorem mem_ite_singleton {C : Prop} [Decidable C] (x f : Finding)
    (h : f ∈ (if C then [x] else [])) : f = x := by
  split at h <;> simp_all

theorem topSum_nonneg (groups : List (Cell × ℚ)) (top : Cell × ℚ)
    (hlen : 5 < groups.length) (hpick : pickTop groups = some top)
    (h30 : 30 < top.2 / (groups.map Prod.snd).sum * 100) : 0 ≤ top.2 := by
  by_contra hneg
  push_neg at hneg
  have hmax := pickTop_le groups top hpick
  have hsum : (groups.map Prod.snd).sum ≤ (groups.map Prod.snd).length • top.2 := by
    apply List.sum_le_card_nsmul
    intro x hx
    obtain ⟨p, hp, rfl⟩ := List.mem_map.mp hx
    exact hmax p hp
  rw [List.length_map, nsmul_eq_mul] at hsum
  have hlen6 : (6 : ℚ) ≤ (groups.length : ℚ) := by exact_mod_cast hlen
  have h6 : (groups.map Prod.snd).sum ≤ 6 * top.2 :=
    le_trans hsum (mul_le_mul_of_nonpos_right hlen6 (le_of_lt hneg))
  have htotneg : (groups.map Prod.snd).sum < 0 := lt_of_le_of_lt h6 (by nlinarith)
  have hr : (3 : ℚ) / 10 < top.2 / (groups.map Prod.snd).sum := by linarith
  have he : top.2 / (groups.map Prod.snd).sum * (groups.map Prod.snd).sum = top.2 :=
    div_mul_cancel₀ _ (ne_of_lt htotneg)
  have hprod : 0 < (groups.map Prod.snd).sum *
      (1 - 6 * (top.2 / (groups.map Prod.snd).sum)) :=
    mul_pos_of_neg_of_neg htotneg (by linarith)
  have hring : (groups.map Prod.snd).sum * (1 - 6 * (top.2 / (groups.map Prod.snd).sum))
      = (groups.map Prod.snd).sum - 6 * (top.2 / (groups.map Prod.snd).sum * (groups.map Prod.snd).sum) := by
    ring
  rw [hring, he] at hprod
  linarith

theorem negRev_mem_shape (df : DataFrame) (rc : List String) (f : Finding)
    (hf : f ∈ analyze_negative_revenue df rc) :
    f.type = "Negative Revenue" ∧ 0 ≤ f.amount := by
  rw [analyze_negative_revenue, List.mem_flatMap] at hf
  obtain ⟨c, _, hf⟩ := hf
  unfold negRevCol at hf
  split at hf
  · simp at hf
  · split at hf
    · split at hf
      · rw [List.mem_singleton] at hf
        subst hf
        exact ⟨rfl, mul_nonneg (abs_nonneg _) (by norm_num)⟩
      · simp at hf
    · simp at hf

theorem disc_mem_shape (df : DataFrame) (dc rc : List String) (f : Finding)
    (hf : f ∈ analyze_excessive_discounts df dc rc) :
    f.type = "Excessive Discounts" ∧ 0 ≤ f.amount := by
  rw [analyze_excessive_discounts, List.mem_flatMap] at hf
  obtain ⟨c, _, hf⟩ := hf
  unfold discCol at hf
  split at hf
  · simp at hf
  · split at hf
    · dsimp only at hf
      have hfx := mem_ite_singleton _ f hf
      subst hfx
      exact ⟨rfl, abs_nonneg _⟩
    · simp at hf

theorem miss_mem_shape (df : DataFrame) (rc cc : List String) (f : Finding)
    (hf : f ∈ analyze_missing_data df rc cc) : f.type = "Missing Data" := by
  rw [analyze_missing_data, List.mem_flatMap] at hf
  obtain ⟨c, _, hf⟩ := hf
  unfold missCol at hf
  split at hf
  · simp at hf
  · split at hf
    · rw [List.mem_singleton] at hf
      subst hf
      rfl
    · simp at hf

theorem dup_mem_shape (df : DataFrame) (rc : List String) (f : Finding)
    (hf : f ∈ analyze_duplicates df rc) :
    f.type = "Duplicate Transactions" ∧ 0 ≤ f.amount := by
  unfold analyze_duplicates at hf
  split at hf
  · rw [List.mem_singleton] at hf
    subst hf
    exact ⟨rfl, abs_nonneg _⟩
  · simp at hf

theorem pricing_mem_shape (stdFn : List ℚ → ℚ) (df : DataFrame) (pc rc : List String)
    (f : Finding) (hf : f ∈ analyze_pricing_inconsistencies stdFn df pc rc) :
    f.type = "Pricing Inconsistencies" ∧ 0 ≤ f.amount := by
  unfold analyze_pricing_inconsistencies at hf
  split at hf
  · split at hf
    · split at hf
      · dsimp only at hf
        split at hf
        · rw [List.mem_singleton] at hf
          subst hf
          exact ⟨rfl, le_max_right _ _⟩
        · simp at hf
      · simp at hf
    · simp at hf
  · simp at hf

theorem cust_mem_shape (df : DataFrame) (cc rc : List String) (f : Finding)
    (hf : f ∈ analyze_customer_concentration df cc rc) :
    f.type = "Customer Concentration Risk" ∧ 0 ≤ f.amount := by
  unfold analyze_customer_concentration at hf
  split at hf <;> try simp only [List.not_mem_nil] at hf
  split at hf <;> try simp only [List.not_mem_nil] at hf
  split at hf <;> try simp only [List.not_mem_nil] at hf
  try dsimp only at hf
  split at hf <;> try simp only [List.not_mem_nil] at hf
  split at hf <;> try simp only [List.not_mem_nil] at hf
  split at hf <;> try simp only [List.not_mem_nil] at hf
  rw [List.mem_singleton] at hf
  subst hf
  refine ⟨rfl, ?_⟩
  rename_i hnum hlen oscr top hpick h30
  have h0 := topSum_nonneg _ top hlen hpick h30
  nlinarith

theorem mem_sortDesc (l : List Finding) (f : Finding) : f ∈ sortDesc l ↔ f ∈ l :=
  (List.mergeSort_perm l _).mem_iff

theorem mem_items (stdFn : List ℚ → ℚ) (df : DataFrame) (f : Finding)
    (hf : f ∈ (analyze_complete stdFn df).items) :
    f ∈ analyze_negative_revenue df (detect_columns df.cols).revenue
    ∨ f ∈ analyze_excessive_discounts df (detect_columns df.cols).discount
        (detect_columns df.cols).revenue
    ∨ f ∈ analyze_missing_data df (detect_columns df.cols).revenue (detect_columns df.cols).cost
    ∨ f ∈ analyze_duplicates df (detect_columns df.cols).revenue
    ∨ f ∈ analyze_pricing_inconsistencies stdFn df (detect_columns df.cols).product
        (detect_columns df.cols).revenue
    ∨ f ∈ analyze_customer_concentration df (detect_columns df.cols).customer
        (detect_columns df.cols).revenue := by
  replace hf := (mem_sortDesc _ f).mp hf
  simp only [List.mem_append] at hf
  tauto

/-- C6 fails on the code: on a revenue column holding [-100, null] the
missing-data analyzer emits a Finding whose amount is the column mean (-100)
times the null count (1), a negative dollar amount. -/
theorem c6_counterexample :
    (detect_columns dfC6.cols).revenue = ["revenue"]
    ∧ (detect_columns dfC6.cols).cost = []
    ∧ (analyze_missing_data dfC6 (detect_columns dfC6.cols).revenue
        (detect_columns dfC6.cols).cost).map Finding.amount = [-100]
    ∧ ¬ (0 : ℚ) ≤ -100 := by
  refine ⟨by decide, by decide, ?_, by norm_num⟩
  have h1 : (detect_columns dfC6.cols).revenue = ["revenue"] := by decide
  have h2 : (detect_columns dfC6.cols).cost = [] := by decide
  rw [h1, h2]
  have h0 : analyze_missing_data dfC6 ["revenue"] [] =
      [{ type := "Missing Data", column := "revenue",
         amount := (numsOf [Cell.num (-100), Cell.null]).sum
           / ((numsOf [Cell.num (-100), Cell.null]).length : ℚ)
           * ((nullCountOf [Cell.num (-100), Cell.null] : ℕ) : ℚ),
         severity := "high", category := "Data Quality", status := "active",
         affected_rows := nullCountOf [Cell.num (-100), Cell.null] }] := rfl
  rw [h0]
  simp only [List.map_cons, List.map_nil, numsOf, nullCountOf, List.filterMap_cons,
    List.filterMap_nil, List.filter_cons, List.filter_nil, cellNum]
  norm_num
  decide

/-- C6 amended: every Finding produced by the aggregator has a non-negative
affected-row count (all counts are naturals by construction), and every
Finding other than the Missing Data ones has a non-negative amount; a
Missing Data Finding's amount equals mean * null_count and is negative
exactly when the column mean is negative, as the counterexample shows. -/
theorem c6_amended (stdFn : List ℚ → ℚ) (df : DataFrame) :
    (analyze_complete stdFn df).items.Forall
      (fun f => (f.type = "Missing Data" ∨ 0 ≤ f.amount) ∧ 0 ≤ (f.affected_rows : ℤ)) := by
  rw [List.forall_iff_forall_mem]
  intro f hf
  refine ⟨?_, Int.natCast_nonneg _⟩
  rcases mem_items stdFn df f hf with h | h | h | h | h | h
  · exact Or.inr (negRev_mem_shape _ _ _ h).2
  · exact Or.inr (disc_mem_shape _ _ _ _ h).2
  · exact Or.inl (miss_mem_shape _ _ _ _ h)
  · exact Or.inr (dup_mem_shape _ _ _ h).2
  · exact Or.inr (pricing_mem_shape _ _ _ _ _ h).2
  · exact Or.inr (cust_mem_shape _ _ _ _ h).2

/-- C10: the negative_revenue metric sums affected_rows only over findings
whose type is exactly the string Negative Revenue Values; both analyzer
variants emit the type Negative Revenue (the route variant additionally Zero
Revenue Transactions), so on any list produced by them the metric is 0, and
a non-zero value requires a finding with the exact string the filter
compares against. -/
theorem c10_negative_revenue_metric :
    (∀ (upload : UploadMeta) (ds : DataSummary) (leaks : List Finding),
      (∀ f ∈ leaks, ¬ f.type = "Negative Revenue Values") →
      calculate_metric_value "negative_revenue" upload leaks ds = 0)
    ∧ (∀ (stdFn : List ℚ → ℚ) (df : DataFrame) (f : Finding),
        f ∈ (analyze_complete stdFn df).items → ¬ f.type = "Negative Revenue Values")
    ∧ (∀ (stdFn : List ℚ → ℚ) (df : DataFrame) (upload : UploadMeta) (ds : DataSummary),
        calculate_metric_value "negative_revenue" upload (analyze_complete stdFn df).items ds = 0)
    ∧ (∀ (df : DataFrame) (revCols : List String) (f : Finding),
        f ∈ route_analyze_negative_revenue df revCols →
        f.type = "Negative Revenue" ∨ f.type = "Zero Revenue Transactions")
    ∧ (∀ (upload : UploadMeta) (ds : DataSummary) (leaks : List Finding),
        calculate_metric_value "negative_revenue" upload leaks ds ≠ 0 →
        ∃ f ∈ leaks, f.type = "Negative Revenue Values") := by
  have H1 : ∀ (upload : UploadMeta) (ds : DataSummary) (leaks : List Finding),
      (∀ f ∈ leaks, ¬ f.type = "Negative Revenue Values") →
      calculate_metric_value "negative_revenue" upload leaks ds = 0 := by
    intro upload ds leaks h
    have hnil : leaks.filter (fun l => decide (l.type = "Negative Revenue Values")) = [] := by
      rw [List.filter_eq_nil_iff]
      intro a ha
      simp [h a ha]
    simp [calculate_metric_value, hnil]
  have H2 : ∀ (stdFn : List ℚ → ℚ) (df : DataFrame) (f : Finding),
      f ∈ (analyze_complete stdFn df).items → ¬ f.type = "Negative Revenue Values" := by
    intro stdFn df f hf
    rcases mem_items stdFn df f hf with h | h | h | h | h | h
    · rw [(negRev_mem_shape _ _ _ h).1]; decide
    · rw [(disc_mem_shape _ _ _ _ h).1]; decide
    · rw [miss_mem_shape _ _ _ _ h]; decide
    · rw [(dup_mem_shape _ _ _ h).1]; decide
    · rw [(pricing_mem_shape _ _ _ _ _ h).1]; decide
    · rw [(cust_mem_shape _ _ _ _ h).1]; decide
  have H4 : ∀ (df : DataFrame) (revCols : List String) (f : Finding),
      f ∈ route_analyze_negative_revenue df revCols →
      f.type = "Negative Revenue" ∨ f.type = "Zero Revenue Transactions" := by
    intro df rc f hf
    rw [route_analyze_negative_revenue, List.mem_flatMap] at hf
    obtain ⟨c, _, hf⟩ := hf
    unfold routeNegRevCol at hf
    split at hf
    · simp at hf
    · split at hf
      · rw [List.mem_append] at hf
        rcases hf with hf | hf
        · have hfx := mem_ite_singleton _ f hf
          subst hfx
          exact Or.inl rfl
        · have hfx := mem_ite_singleton _ f hf
          subst hfx
          exact Or.inr rfl
      · simp at hf
  refine ⟨H1, H2, fun stdFn df upload ds => H1 upload ds _ (H2 stdFn df), H4, ?_⟩
  intro upload ds leaks hne
  by_contra hc
  push_neg at hc
  exact hne (H1 upload ds leaks hc)

/-- Witness for C10: a list holding one Negative Revenue finding with a
positive affected-row count evaluates to metric 0. -/
theorem c10_witness :
    calculate_metric_value "negative_revenue" upl0 [fNegRev0] ds0 = 0 :=
  c10_negative_revenue_metric.1 upl0 ds0 [fNegRev0] (by decide)

theorem colHasObjE_false (df : DataFrameE) (h : hasObjE df = false) (c : String) :
    colHasObjE df c = false := by
  unfold colHasObjE getColE
  cases hidx : df.cols.findIdx? (fun x => x = c) with
  | none => rfl
  | some i =>
    show (df.rows.map (fun r => r.getD i CellE.null)).any isObjCell = false
    rw [List.any_eq_false]
    intro cell hcell
    obtain ⟨r, hr, rfl⟩ := List.mem_map.mp hcell
    have hrow : ∀ x ∈ r, ¬ isObjCell x = true := by
      have hall := List.any_eq_false.mp h r hr
      exact List.any_eq_false.mp (Bool.eq_false_iff.mpr hall) 
    rcases Nat.lt_or_ge i r.length with hi | hi
    · rw [List.getD_eq_getElem r CellE.null hi]
      exact hrow _ (List.getElem_mem hi)
    · rw [List.getD_eq_default r CellE.null hi]
      simp [isObjCell]

/-- C3 fails on the code: the aggregator contains no exception handling, so
a dataset holding an unhashable value aborts the entire report through the
unguarded duplicate-detection call even though the negative-revenue analyzer
had a finding to contribute; the surviving-findings guarantee does not hold. -/
theorem c3_counterexample :
    analyzeCompleteE stdZero dfBadC3 = Except.error "TypeError: unhashable object"
    ∧ (analyze_negative_revenue (projDF dfBadC3) (detect_columns dfBadC3.cols).revenue).length
        = 1 := by
  constructor
  · rfl
  · decide

/-- C3 amended: exception handling sits inside the individual analyzers at
per-column granularity, not in the aggregator.  On data satisfying the
loader contract (no unhashable values) nothing raises and the full report is
produced; a failure inside the pricing analyzer's per-pair body is caught
there and that category contributes zero findings; but an exception escaping
an analyzer (duplicate detection on unhashable data) aborts the whole
report, as the counterexample shows. -/
theorem c3_amended :
    (∀ (stdFn : List ℚ → ℚ) (df : DataFrameE), hasObjE df = false →
      analyzeCompleteE stdFn df = Except.ok (analyze_complete stdFn (projDF df)))
    ∧ (∀ (stdFn : List ℚ → ℚ) (df : DataFrameE) (p : String) (ps rcs : List String),
        colHasObjE df p = true → analyze_pricing_E stdFn df (p :: ps) rcs = []) := by
  constructor
  · intro stdFn df h
    have hcol := colHasObjE_false df h
    have hpr : analyze_pricing_E stdFn df (detect_columns df.cols).product
        (detect_columns df.cols).revenue =
        analyze_pricing_inconsistencies stdFn (projDF df) (detect_columns df.cols).product
          (detect_columns df.cols).revenue := by
      unfold analyze_pricing_E
      cases hh : (detect_columns df.cols).product.head? with
      | none =>
        rw [List.head?_eq_none_iff.mp hh]
        rfl
      | some p =>
        simp only [hcol p, Bool.false_eq_true, if_false]
    have hcust : analyze_customer_E df (detect_columns df.cols).customer
        (detect_columns df.cols).revenue =
        analyze_customer_concentration (projDF df) (detect_columns df.cols).customer
          (detect_columns df.cols).revenue := by
      unfold analyze_customer_E
      cases hh : (detect_columns df.cols).customer.head? with
      | none =>
        rw [List.head?_eq_none_iff.mp hh]
        rfl
      | some c =>
        simp only [hcol c, Bool.false_eq_true, if_false]
    unfold analyzeCompleteE analyze_duplicates_E
    rw [h]
    simp only [Bool.false_eq_true, if_false]
    rw [hpr, hcust]
    rfl
  · intro stdFn df p ps rcs h
    unfold analyze_pricing_E
    simp only [List.head?, h, if_true]

/-- Witness for the amended C3: a clean one-row dataframe yields the full
report, and a product column holding an unhashable object makes the pricing
analyzer contribute no findings without escalating. -/
theorem c3_witness :
    (analyzeCompleteE stdZero dfOkC3 = Except.ok (analyze_complete stdZero (projDF dfOkC3)))
    ∧ analyze_pricing_E stdZero dfObjW ["Product"] ["Sales"] = [] :=
  ⟨c3_amended.1 stdZero dfOkC3 (by decide),
   c3_amended.2 stdZero dfObjW "Product" [] ["Sales"] (by decide)⟩
